import Mathlib

/-!
# Verification of the op-rs networking and attribute-validation core

Shallow embedding of the relevant parts of the `op-rs` repository
(crates `rollup` and `net`) together with proofs about the embedded
operations.

* `crates/rollup/src/validator.rs` — `TrustedValidator` (trusted-RPC
  reconstruction of L2 payload attributes) and `EngineApiValidator`
  (engine-API response interpretation).
* `crates/net/src/builder.rs` — `NetworkDriverBuilder::build`.
* `crates/net/src/driver.rs` — `NetworkDriver::start`.

Asynchronous RPC calls are embedded as explicit result-valued fields of
a `Provider` record; fallible Rust code returning `eyre::Result` is
embedded as `Except String`.
-/

namespace OpRs

/-! ## Data model for the rollup validator (`validator.rs`) -/

/-- A 256-bit word (hash, randao value) is embedded as a `Nat`. -/
abbrev B256 := Nat

/-- An account address is embedded as a `Nat`. -/
abbrev Address := Nat

/-- A transaction hash. -/
abbrev TxHash := Nat

/-- `RawTransaction`: an opaque RLP-encoded byte sequence, preserved verbatim. -/
abbrev RawTransaction := List Nat

/-- A withdrawal entry (opaque for our purposes: the code only ever
produces the empty withdrawal list). -/
abbrev Withdrawal := Nat

/-- The fields of an `alloy` block `Header` read by `TrustedValidator`.
`gas_limit` is a `u128` in the source and is truncated with `as u64`
when placed into the payload attributes. -/
structure Header where
  timestamp : Nat
  mix_hash : Option B256
  miner : Address
  parent_beacon_block_root : Option B256
  gas_limit : Nat
deriving DecidableEq, Repr

/-- A block fetched with `BlockTransactionsKind::Hashes`: a header plus
the list of transaction hashes (no bodies). -/
structure Block where
  header : Header
  transactions : List TxHash
deriving DecidableEq, Repr

/-- `L2PayloadAttributes` from `kona_primitives`, restricted to the
fields populated by `TrustedValidator::get_payload`. -/
structure L2PayloadAttributes where
  timestamp : Nat
  prev_randao : B256
  fee_recipient : Address
  withdrawals : Option (List Withdrawal)
  parent_beacon_block_root : Option B256
  transactions : List RawTransaction
  no_tx_pool : Bool
  gas_limit : Option Nat
deriving DecidableEq, Repr

/-- `BlockInfo`: the block metadata carried by the parent reference. -/
structure BlockInfo where
  number : Nat
deriving DecidableEq, Repr

/-- `L2BlockInfo`: wraps the parent's `BlockInfo`. -/
structure L2BlockInfo where
  block_info : BlockInfo
deriving DecidableEq, Repr

/-- `L2AttributesWithParent`: the attributes under validation together
with the parent block info. -/
structure L2AttributesWithParent where
  attributes : L2PayloadAttributes
  parent : L2BlockInfo
deriving DecidableEq, Repr

/-- The trusted L2 RPC, embedded as a record of result-valued calls:
`get_block_by_number` is `provider.get_block(tag, Hashes)` (an outer
error is a transport failure, `none` is "block not found"), and
`debug_getRawTransaction` is the raw-transaction fetch by hash. -/
structure Provider where
  get_block_by_number : Nat → Except String (Option Block)
  debug_getRawTransaction : TxHash → Except String RawTransaction

/-- `TrustedValidator`: a trusted L2 provider plus the canyon
activation timestamp. -/
structure TrustedValidator where
  provider : Provider
  canyon_activation : Nat

/-- The per-transaction fetch loop in `TrustedValidator::get_block`:
for each transaction hash fetch the raw RLP; the first failure aborts
with `"Failed to fetch transaction"`. -/
def fetch_raw_txs (p : Provider) : List TxHash → Except String (List RawTransaction)
  | [] => .ok []
  | h :: rest =>
    match p.debug_getRawTransaction h with
    | .ok tx =>
      match fetch_raw_txs p rest with
      | .ok txs => .ok (tx :: txs)
      | .error e => .error e
    | .error _ => .error "Failed to fetch transaction"

/-- `TrustedValidator::get_block`: fetch the non-hydrated block (hash
list only), fetch every raw transaction, and sanity-check the count. -/
def TrustedValidator.get_block (v : TrustedValidator) (tag : Nat) :
    Except String (Header × List RawTransaction) :=
  match v.provider.get_block_by_number tag with
  | .error e => .error ("Failed to fetch block: " ++ e)
  | .ok none => .error "Block not found"
  | .ok (some block) =>
    match fetch_raw_txs v.provider block.transactions with
    | .error e => .error e
    | .ok txs =>
      if txs.length ≠ block.transactions.length then
        .error "Transaction count mismatch"
      else
        .ok (block.header, txs)

/-- `TrustedValidator::get_payload`: reconstruct `L2PayloadAttributes`
from the fetched header and raw transactions. -/
def TrustedValidator.get_payload (v : TrustedValidator) (tag : Nat) :
    Except String L2PayloadAttributes :=
  match v.get_block tag with
  | .error e => .error e
  | .ok (header, transactions) =>
    .ok {
      timestamp := header.timestamp
      prev_randao := header.mix_hash.getD 0
      fee_recipient := header.miner
      withdrawals := if v.canyon_activation ≤ header.timestamp then some [] else none
      parent_beacon_block_root := header.parent_beacon_block_root
      transactions := transactions
      no_tx_pool := true
      gas_limit := some (header.gas_limit % 2 ^ 64)
    }

/-- `<TrustedValidator as AttributesValidator>::validate`: fetch the
payload for parent number + 1 and compare for exact equality. -/
def TrustedValidator.validate (v : TrustedValidator)
    (attributes : L2AttributesWithParent) : Except String Bool :=
  let expected := attributes.parent.block_info.number + 1
  match v.get_payload expected with
  | .ok payload => .ok (decide (attributes.attributes = payload))
  | .error err =>
    .error ("Failed to fetch payload for block " ++ Nat.repr expected ++ ": " ++ err)

/-! ## Concrete fixtures used by witnesses -/

/-- A sample post-canyon header (timestamp 1200). -/
def sampleHeader : Header :=
  { timestamp := 1200, mix_hash := some 7, miner := 3,
    parent_beacon_block_root := some 9, gas_limit := 30000000 }

/-- A sample block with two transaction hashes. -/
def sampleBlock : Block := { header := sampleHeader, transactions := [5, 6] }

/-- A sample trusted provider serving `sampleBlock` at height 101. -/
def sampleProvider : Provider :=
  { get_block_by_number := fun n => if n = 101 then .ok (some sampleBlock) else .ok none
    debug_getRawTransaction := fun h => .ok [h, h] }

/-- A sample trusted validator with canyon activation 1000. -/
def sampleValidator : TrustedValidator :=
  { provider := sampleProvider, canyon_activation := 1000 }

/-- The payload attributes `sampleValidator` reconstructs from block 101. -/
def samplePayload : L2PayloadAttributes :=
  { timestamp := 1200, prev_randao := 7, fee_recipient := 3, withdrawals := some [],
    parent_beacon_block_root := some 9, transactions := [[5, 5], [6, 6]],
    no_tx_pool := true, gas_limit := some 30000000 }

/-- Attributes claiming to extend parent block 100, matching `samplePayload`. -/
def sampleAttributes : L2AttributesWithParent :=
  { attributes := samplePayload, parent := { block_info := { number := 100 } } }

/-- A header one second before canyon activation, with no mix hash. -/
def preCanyonHeader : Header :=
  { timestamp := 999, mix_hash := none, miner := 3,
    parent_beacon_block_root := none, gas_limit := 5 }

/-- An empty block under `preCanyonHeader`. -/
def preCanyonBlock : Block := { header := preCanyonHeader, transactions := [] }

/-- A provider serving `preCanyonBlock` at every height. -/
def preCanyonProvider : Provider :=
  { get_block_by_number := fun _ => .ok (some preCanyonBlock)
    debug_getRawTransaction := fun _ => .error "unavailable" }

/-- A validator whose canyon activation (1000) is after `preCanyonHeader`. -/
def preCanyonValidator : TrustedValidator :=
  { provider := preCanyonProvider, canyon_activation := 1000 }

/-- The payload reconstructed from `preCanyonHeader`: no withdrawals,
zero prev-randao. -/
def preCanyonPayload : L2PayloadAttributes :=
  { timestamp := 999, prev_randao := 0, fee_recipient := 3, withdrawals := none,
    parent_beacon_block_root := none, transactions := [],
    no_tx_pool := true, gas_limit := some 5 }

/-- A header exactly at canyon activation (timestamp 1000). -/
def atCanyonHeader : Header :=
  { timestamp := 1000, mix_hash := some 2, miner := 4,
    parent_beacon_block_root := none, gas_limit := 7 }

/-- An empty block under `atCanyonHeader`. -/
def atCanyonBlock : Block := { header := atCanyonHeader, transactions := [] }

/-- A provider serving `atCanyonBlock` at every height. -/
def atCanyonProvider : Provider :=
  { get_block_by_number := fun _ => .ok (some atCanyonBlock)
    debug_getRawTransaction := fun _ => .error "unavailable" }

/-- A validator whose canyon activation equals `atCanyonHeader.timestamp`. -/
def atCanyonValidator : TrustedValidator :=
  { provider := atCanyonProvider, canyon_activation := 1000 }

/-- The payload reconstructed from `atCanyonHeader`: withdrawals present
and empty. -/
def atCanyonPayload : L2PayloadAttributes :=
  { timestamp := 1000, prev_randao := 2, fee_recipient := 4, withdrawals := some [],
    parent_beacon_block_root := none, transactions := [],
    no_tx_pool := true, gas_limit := some 7 }

/-! ## Data model for the engine-API validator -/

/-- A JSON value, as produced by parsing an engine-API response body. -/
inductive Json where
  | null
  | bool (b : Bool)
  | num (n : Int)
  | str (s : String)
  | arr (elements : List Json)
  | obj (fields : List (String × Json))

/-- Object-member lookup, as used by `serde_json`'s pointer. -/
def lookup_field : List (String × Json) → String → Option Json
  | [], _ => none
  | (k, v) :: rest, key => if k = key then some v else lookup_field rest key

/-- Look a key up in a JSON value (objects only). -/
def Json.get_key : Json → String → Option Json
  | .obj fields, key => lookup_field fields key
  | _, _ => none

/-- `body.pointer("/result/status")`: navigate `result` then `status`. -/
def Json.pointer_result_status (body : Json) : Option Json :=
  (body.get_key "result").bind (fun r => r.get_key "status")

/-- `Value::as_str`: the string payload, when the value is a string. -/
def Json.as_str : Json → Option String
  | .str s => some s
  | _ => none

/-- The `.pointer("/result/status").and_then(as_str).map_or(false, == "VALID")`
chain of `EngineApiValidator::validate`. -/
def status_is_valid (body : Json) : Bool :=
  match body.pointer_result_status.bind Json.as_str with
  | some s => s == "VALID"
  | none => false

/-- The response interpretation of `EngineApiValidator::validate`
(validator.rs lines 169–180): the body is parsed first (`?` propagates a
malformed body as an error), then an HTTP 200 yields the status-field
comparison and any other HTTP status bails with an error. -/
def EngineApiValidator.validate_response (status : Nat)
    (body : Except String Json) : Except String Bool :=
  match body with
  | .error e => .error e
  | .ok b =>
    if status = 200 then
      .ok (status_is_valid b)
    else
      .error ("Engine API returned status: " ++ Nat.repr status)

/-- A well-formed body whose `result.status` is exactly `"VALID"`. -/
def engineValidBody : Json :=
  Json.obj [("result", Json.obj [("status", Json.str "VALID")])]

/-- A well-formed body whose `result.status` is `"INVALID"`. -/
def engineInvalidBody : Json :=
  Json.obj [("result", Json.obj [("status", Json.str "INVALID")])]

/-! ## Data model for the networking crate (`builder.rs`, `driver.rs`)

The builder and driver orchestration code is under `src/`; the leaf
components they wire together (`NetworkAddress`, `BlockHandler`,
`GossipDriver`, `DiscoveryDriver`, the gossipsub config) are not, so
those are modelled from the spec, as marked on each declaration. -/

/-- A host/port socket address. -/
structure SocketAddr where
  ip : Nat
  port : Nat
deriving DecidableEq, Repr

/-- Modelled from the spec: `NetworkAddress` (`types/address.rs`, not
under src/) wraps a validated host+port pair and converts losslessly to
and from the transport multi-address. -/
structure NetworkAddress where
  ip : Nat
  port : Nat
deriving DecidableEq, Repr

/-- Modelled from the spec: conversion from a socket address; it fails
only for an unrepresentable address family, and every address of the
embedded socket type is representable. -/
def NetworkAddress.try_from (s : SocketAddr) : Except String NetworkAddress :=
  .ok { ip := s.ip, port := s.port }

/-- Modelled from the spec: the transport-layer multi-address. -/
structure Multiaddr where
  ip : Nat
  port : Nat
deriving DecidableEq, Repr

/-- Modelled from the spec: the lossless multi-address conversion. -/
def Multiaddr.from_address (a : NetworkAddress) : Multiaddr :=
  { ip := a.ip, port := a.port }

/-- Modelled from the spec: the gossipsub configuration, with an
independently constructible, extensible default. -/
structure GossipConfig where
  flood_publish : Bool := false
deriving DecidableEq, Repr

/-- Modelled from the spec: `config::default_config` (not under src/),
the documented default gossipsub configuration. -/
def default_config : Except String GossipConfig := .ok {}

/-- A node identity keypair (opaque). -/
abbrev Keypair := Nat

/-- Modelled from the spec: a freshly generated ephemeral identity. -/
def Keypair.generate_secp256k1 : Keypair := 0

/-- A gossipsub topic built from its name string. -/
structure IdentTopic where
  topic : String
deriving DecidableEq, Repr

/-- `IdentTopic::new`. -/
def IdentTopic.new (s : String) : IdentTopic := { topic := s }

/-- The topic hash is a deterministic function of the topic string; it
is embedded as the string itself, which preserves equality of hashes of
equal topic names. -/
def IdentTopic.hash (t : IdentTopic) : String := t.topic

/-- The write half of the signer watch channel, holding the value it
was seeded with. -/
structure WatchSender where
  value : Address
deriving DecidableEq, Repr

/-- The read half of the signer watch channel. -/
structure WatchReceiver where
  value : Address
deriving DecidableEq, Repr

/-- `tokio::sync::watch::channel`, seeded with the initial signer. -/
def watch_channel (a : Address) : WatchSender × WatchReceiver :=
  ({ value := a }, { value := a })

/-- Modelled from the spec: `BlockHandler` (`gossip/handler.rs`, not
under src/) owns the chain ID, the signer receiver, and the three
versioned block topics. -/
structure BlockHandler where
  chain_id : Nat
  block_signer_recv : WatchReceiver
  blocks_v1_topic : IdentTopic
  blocks_v2_topic : IdentTopic
  blocks_v3_topic : IdentTopic
deriving DecidableEq, Repr

/-- Modelled from the spec: `BlockHandler::new` builds the three topics
`/optimism/{chainId}/{0|1|2}/blocks` from the chain ID and returns the
handler together with the unsafe-block outbound channel (opaque). -/
def BlockHandler.new (chain_id : Nat) (recv : WatchReceiver) : BlockHandler × Unit :=
  ({ chain_id := chain_id
     block_signer_recv := recv
     blocks_v1_topic := IdentTopic.new ("/optimism/" ++ Nat.repr chain_id ++ "/0/blocks")
     blocks_v2_topic := IdentTopic.new ("/optimism/" ++ Nat.repr chain_id ++ "/1/blocks")
     blocks_v3_topic := IdentTopic.new ("/optimism/" ++ Nat.repr chain_id ++ "/2/blocks") },
   ())

/-- Modelled from the spec: the gossipsub behaviour assembled from the
config and the handlers. -/
structure Behaviour where
  config : GossipConfig

/-- Modelled from the spec: `Behaviour::new`. -/
def Behaviour.new (config : GossipConfig) (_handlers : List BlockHandler) :
    Except String Behaviour :=
  .ok { config := config }

/-- Modelled from the spec: the libp2p swarm; what matters here is the
outcome of asking it to listen on a multi-address. -/
structure Swarm where
  behaviour : Behaviour
  listen_outcome : Multiaddr → Except String Unit

/-- Modelled from the spec: the `SwarmBuilder` chain in `build`
(identity, tcp/noise/yamux transport configuration, behaviour). -/
def Swarm.build (_keypair : Keypair) (_tcp : Option Unit) (_noise : Option Unit)
    (_yamux : Option Unit) (behaviour : Behaviour) : Except String Swarm :=
  .ok { behaviour := behaviour, listen_outcome := fun _ => .ok () }

/-- Modelled from the spec: `GossipDriver` (`gossip/driver.rs`, not
under src/) owns the swarm, the listen multi-address and the handler. -/
structure GossipDriver where
  swarm : Swarm
  addr : Multiaddr
  handler : BlockHandler

/-- Modelled from the spec: `GossipDriver::new`. -/
def GossipDriver.new (swarm : Swarm) (addr : Multiaddr) (handler : BlockHandler) :
    GossipDriver :=
  { swarm := swarm, addr := addr, handler := handler }

/-- Modelled from the spec: `listen()` fails iff the bind address
cannot be opened. -/
def GossipDriver.listen (g : GossipDriver) : Except String Unit :=
  g.swarm.listen_outcome g.addr

/-- Modelled from the spec: `DiscoveryDriver` (`discovery/driver.rs`,
not under src/) runs discovery scoped to a chain ID and node address;
`start()` fails if the discovery transport cannot bind, otherwise it
yields the peer stream (opaque here). -/
structure DiscoveryDriver where
  chain_id : Nat
  address : NetworkAddress
  start_result : Except String Unit

/-- Modelled from the spec: `DiscoveryDriver::start`. -/
def DiscoveryDriver.start (d : DiscoveryDriver) : Except String Unit :=
  d.start_result

/-- Modelled from the spec: `DiscoveryBuilder` (`discovery/builder.rs`,
not under src/), parameterized by node address and chain ID. -/
structure DiscoveryBuilder where
  address : Option NetworkAddress := none
  chain_id : Option Nat := none

/-- Modelled from the spec: `DiscoveryBuilder::new`. -/
def DiscoveryBuilder.new : DiscoveryBuilder := {}

/-- Modelled from the spec: set the node address. -/
def DiscoveryBuilder.with_address (b : DiscoveryBuilder) (a : NetworkAddress) :
    DiscoveryBuilder :=
  { b with address := some a }

/-- Modelled from the spec: set the chain ID. -/
def DiscoveryBuilder.with_chain_id (b : DiscoveryBuilder) (c : Nat) :
    DiscoveryBuilder :=
  { b with chain_id := some c }

/-- Modelled from the spec: building the discovery service from its two
parameters. -/
def DiscoveryBuilder.build (b : DiscoveryBuilder) : Except String DiscoveryDriver :=
  match b.address, b.chain_id with
  | some a, some c => .ok { chain_id := c, address := a, start_result := .ok () }
  | _, _ => .error "discovery builder missing field"

/-- `NetworkDriver` (driver.rs): the top-level orchestration unit. -/
structure NetworkDriver where
  block_recv : Unit
  block_signer_sender : WatchSender
  gossip : GossipDriver
  discovery : DiscoveryDriver

/-- `NetworkDriverBuilder` (builder.rs): accumulated optional
configuration. The source field holding the signer is named after the
unsafe-block signer; it is shortened here to `block_signer`. -/
structure NetworkDriverBuilder where
  chain_id : Option Nat := none
  block_signer : Option Address := none
  socket : Option SocketAddr := none
  gossip_config : Option GossipConfig := none
  keypair : Option Keypair := none
  tcp_config : Option Unit := none
  noise_config : Option Unit := none
  yamux_config : Option Unit := none

/-- `NetworkDriverBuilder::build` (builder.rs lines 151–193), in source
order: resolve the gossip config (default when unset), require the
signer, require the chain ID, create the watch channel and handler,
assemble behaviour and swarm, require the socket, convert it to a
multi-address, and wire gossip and discovery into the driver. -/
def NetworkDriverBuilder.build (b : NetworkDriverBuilder) : Except String NetworkDriver := do
  let config ← match b.gossip_config with
    | some cfg => Except.ok cfg
    | none => default_config
  let signer ← match b.block_signer with
    | some s => Except.ok s
    | none => Except.error "unsafe block signer not set"
  let chain_id ← match b.chain_id with
    | some c => Except.ok c
    | none => Except.error "chain ID not set"
  let (sender, recv) := watch_channel signer
  let (handler, block_recv) := BlockHandler.new chain_id recv
  let behaviour ← Behaviour.new config [handler]
  let keypair := b.keypair.getD Keypair.generate_secp256k1
  let swarm ← Swarm.build keypair b.tcp_config b.noise_config b.yamux_config behaviour
  let socket ← match b.socket with
    | some s => Except.ok s
    | none => Except.error "socket address not set"
  let addr ← NetworkAddress.try_from socket
  let swarm_addr := Multiaddr.from_address addr
  let gossip := GossipDriver.new swarm swarm_addr handler
  let discovery ← ((DiscoveryBuilder.new.with_address addr).with_chain_id chain_id).build
  Except.ok { block_recv := block_recv, block_signer_sender := sender,
              gossip := gossip, discovery := discovery }

/-- The observable phases of `NetworkDriver::start`. -/
inductive StartAction where
  | start_discovery
  | listen_gossip
  | spawn_loop
deriving DecidableEq, Repr

/-- `NetworkDriver::start` (driver.rs lines 37–54): start discovery
first (propagating its failure), then listen on gossip (propagating its
failure), and spawn the orchestration loop only after both succeed.
The returned list records which phases were entered, in order. -/
def NetworkDriver.start (d : NetworkDriver) : List StartAction × Except String Unit :=
  match d.discovery.start with
  | .error e => ([.start_discovery], .error e)
  | .ok _ =>
    match d.gossip.listen with
    | .error e => ([.start_discovery, .listen_gossip], .error e)
    | .ok _ => ([.start_discovery, .listen_gossip, .spawn_loop], .ok ())

/-! ## Networking fixtures used by witnesses -/

/-- A handler for chain 10 with signer 3. -/
def sampleHandler : BlockHandler := (BlockHandler.new 10 { value := 3 }).1

/-- A swarm whose listen always succeeds. -/
def okSwarm : Swarm :=
  { behaviour := { config := {} }, listen_outcome := fun _ => .ok () }

/-- A swarm whose listen always fails to bind. -/
def failListenSwarm : Swarm :=
  { behaviour := { config := {} }, listen_outcome := fun _ => .error "bind failed" }

/-- A discovery service that starts successfully. -/
def okDiscovery : DiscoveryDriver :=
  { chain_id := 10, address := { ip := 1, port := 2 }, start_result := .ok () }

/-- A discovery service whose transport cannot bind. -/
def failDiscovery : DiscoveryDriver :=
  { chain_id := 10, address := { ip := 1, port := 2 },
    start_result := .error "discv5 bind failed" }

/-- A driver whose two startup phases both succeed. -/
def okDriver : NetworkDriver :=
  { block_recv := (), block_signer_sender := { value := 3 },
    gossip := GossipDriver.new okSwarm { ip := 1, port := 2 } sampleHandler,
    discovery := okDiscovery }

/-- A driver whose discovery phase fails. -/
def discFailDriver : NetworkDriver :=
  { block_recv := (), block_signer_sender := { value := 3 },
    gossip := GossipDriver.new okSwarm { ip := 1, port := 2 } sampleHandler,
    discovery := failDiscovery }

/-- A driver whose gossip listen phase fails. -/
def listenFailDriver : NetworkDriver :=
  { block_recv := (), block_signer_sender := { value := 3 },
    gossip := GossipDriver.new failListenSwarm { ip := 1, port := 2 } sampleHandler,
    discovery := okDiscovery }

/-- The driver produced by `build` for chain 10, signer 3, socket
(1, 2) with no custom configuration. -/
def sampleNetDriver : NetworkDriver :=
  { block_recv := ()
    block_signer_sender := { value := 3 }
    gossip := GossipDriver.new
      { behaviour := { config := {} }, listen_outcome := fun _ => .ok () }
      { ip := 1, port := 2 } (BlockHandler.new 10 { value := 3 }).1
    discovery :=
      { chain_id := 10, address := { ip := 1, port := 2 }, start_result := .ok () } }

/-! ## Helper lemmas about the fetch loop -/

/-- If the per-transaction fetch loop completes without error, it
returns exactly one raw transaction per input hash. -/
theorem fetch_raw_txs_length (p : Provider) :
    ∀ (hashes : List TxHash) (txs : List RawTransaction),
      fetch_raw_txs p hashes = .ok txs → txs.length = hashes.length := by
  intro hashes
  induction hashes with
  | nil => intro txs h; simp [fetch_raw_txs] at h; simp [← h]
  | cons hd tl ih =>
    intro txs h
    simp only [fetch_raw_txs] at h
    cases hfetch : p.debug_getRawTransaction hd with
    | error e => simp [hfetch] at h
    | ok tx =>
      simp only [hfetch] at h
      cases hrest : fetch_raw_txs p tl with
      | error e => simp [hrest] at h
      | ok txs' =>
        simp only [hrest] at h
        cases h
        simp [ih txs' hrest]

/-- If some hash in the list fails to fetch, the loop errors. -/
theorem fetch_raw_txs_error_of_mem (p : Provider) :
    ∀ (hashes : List TxHash) (h : TxHash) (e : String),
      h ∈ hashes → p.debug_getRawTransaction h = .error e →
      ∃ msg, fetch_raw_txs p hashes = .error msg := by
  intro hashes
  induction hashes with
  | nil => intro h e hmem; exact absurd hmem (List.not_mem_nil h)
  | cons hd tl ih =>
    intro h e hmem hfail
    rcases List.mem_cons.mp hmem with heq | htl
    · subst heq
      exact ⟨"Failed to fetch transaction", by simp [fetch_raw_txs, hfail]⟩
    · cases hfetch : p.debug_getRawTransaction hd with
      | error e0 => exact ⟨"Failed to fetch transaction", by simp [fetch_raw_txs, hfetch]⟩
      | ok tx =>
        obtain ⟨msg, hmsg⟩ := ih h e htl hfail
        exact ⟨msg, by simp [fetch_raw_txs, hfetch, hmsg]⟩

/-- The fetch loop only ever fails with the literal message
`"Failed to fetch transaction"`. -/
theorem fetch_raw_txs_error_msg (p : Provider) :
    ∀ (hashes : List TxHash) (e : String),
      fetch_raw_txs p hashes = .error e → e = "Failed to fetch transaction" := by
  intro hashes
  induction hashes with
  | nil => intro e h; simp [fetch_raw_txs] at h
  | cons hd tl ih =>
    intro e h
    simp only [fetch_raw_txs] at h
    cases hfetch : p.debug_getRawTransaction hd with
    | error e0 =>
      simp only [hfetch] at h
      cases h
      rfl
    | ok tx =>
      simp only [hfetch] at h
      cases hrest : fetch_raw_txs p tl with
      | error e1 =>
        simp only [hrest] at h
        injection h with h
        exact h ▸ ih e1 hrest
      | ok txs => simp [hrest] at h

/-- The `"Failed to fetch block: ..."` message produced by the
transport-error branch never collides with the count-mismatch message. -/
theorem fetch_block_msg_ne (e : String) :
    "Failed to fetch block: " ++ e ≠ "Transaction count mismatch" := by
  intro h
  have h2 : ("Failed to fetch block: " ++ e).data = "Transaction count mismatch".data := by
    rw [h]
  have h3 : ('F' :: "ailed to fetch block: ".data) ++ e.data
      = 'T' :: "ransaction count mismatch".data := h2
  rw [List.cons_append] at h3
  injection h3 with hc ht
  exact absurd hc (by decide)

/-! ## Claim theorems: TrustedValidator -/

/-- C1: `TrustedValidator::validate` queries the payload for parent
number + 1; when that reconstruction succeeds it returns `Ok(true)` iff
the supplied attributes equal the reconstructed payload exactly (and
`Ok(false)` otherwise), and when it fails, `validate` returns an error,
never `Ok(false)`. -/
theorem trusted_validate_correct (v : TrustedValidator) (a : L2AttributesWithParent) :
    (∀ p, v.get_payload (a.parent.block_info.number + 1) = .ok p →
      (v.validate a = .ok true ↔ a.attributes = p)) ∧
    (∀ e, v.get_payload (a.parent.block_info.number + 1) = .error e →
      v.validate a = .error
        ("Failed to fetch payload for block " ++
          Nat.repr (a.parent.block_info.number + 1) ++ ": " ++ e)) := by
  constructor
  · intro p hp
    simp [TrustedValidator.validate, hp]
  · intro e he
    simp [TrustedValidator.validate, he]

/-- C1 witness: the end-to-end success case at parent block 100. -/
theorem trusted_validate_correct_witness :
    sampleValidator.validate sampleAttributes = .ok true :=
  ((trusted_validate_correct sampleValidator sampleAttributes).1 samplePayload
    rfl).mpr rfl

/-- C4: the withdrawals field reconstructed by `get_payload` is a pure
function of the header timestamp: present-and-empty iff
`timestamp ≥ canyon_activation`, absent iff `timestamp < canyon_activation`,
and never present with contents. -/
theorem get_payload_withdrawals_gate (v : TrustedValidator) (tag : Nat)
    (p : L2PayloadAttributes) (hp : v.get_payload tag = .ok p) :
    (p.withdrawals = some [] ↔ v.canyon_activation ≤ p.timestamp) ∧
    (p.withdrawals = none ↔ p.timestamp < v.canyon_activation) ∧
    (∀ w, p.withdrawals = some w → w = []) := by
  unfold TrustedValidator.get_payload at hp
  split at hp
  · simp at hp
  · rename_i header txs heq
    injection hp with hp
    subst hp
    rcases le_or_lt v.canyon_activation header.timestamp with hle | hlt
    · refine ⟨by simp [hle], by simp [hle, Nat.not_lt.mpr hle], ?_⟩
      intro w hw
      simp [hle] at hw
      exact hw
    · refine ⟨by simp [Nat.not_le.mpr hlt], by simp [Nat.not_le.mpr hlt, hlt], ?_⟩
      intro w hw
      simp [Nat.not_le.mpr hlt] at hw

/-- C4 witness: at `timestamp = activation` withdrawals are present and
empty; at `timestamp = activation - 1` they are absent. -/
theorem get_payload_withdrawals_gate_witness :
    (atCanyonPayload.withdrawals = some [] ↔ 1000 ≤ atCanyonPayload.timestamp) ∧
    (preCanyonPayload.withdrawals = none ↔ preCanyonPayload.timestamp < 1000) :=
  ⟨(get_payload_withdrawals_gate atCanyonValidator 5 atCanyonPayload rfl).1,
   (get_payload_withdrawals_gate preCanyonValidator 5 preCanyonPayload rfl).2.1⟩

/-- C5: `get_block` errors when the block fetch fails, when the block is
not found, when any per-transaction fetch fails, or when the count
check fails; on success the returned list has exactly the block's
transaction count (no silent truncation). -/
theorem get_block_error_conditions (v : TrustedValidator) (tag : Nat) :
    (∀ e, v.provider.get_block_by_number tag = .error e →
      v.get_block tag = .error ("Failed to fetch block: " ++ e)) ∧
    (v.provider.get_block_by_number tag = .ok none →
      v.get_block tag = .error "Block not found") ∧
    (∀ b h e, v.provider.get_block_by_number tag = .ok (some b) →
      h ∈ b.transactions → v.provider.debug_getRawTransaction h = .error e →
      ∃ msg, v.get_block tag = .error msg) ∧
    (∀ b txs, v.provider.get_block_by_number tag = .ok (some b) →
      fetch_raw_txs v.provider b.transactions = .ok txs →
      txs.length ≠ b.transactions.length →
      v.get_block tag = .error "Transaction count mismatch") ∧
    (∀ hd txs, v.get_block tag = .ok (hd, txs) →
      ∃ b, v.provider.get_block_by_number tag = .ok (some b) ∧ hd = b.header ∧
        txs.length = b.transactions.length) := by
  refine ⟨?_, ?_, ?_, ?_, ?_⟩
  · intro e he
    simp [TrustedValidator.get_block, he]
  · intro hnone
    simp [TrustedValidator.get_block, hnone]
  · intro b h e hb hmem hfail
    obtain ⟨msg, hmsg⟩ := fetch_raw_txs_error_of_mem v.provider b.transactions h e hmem hfail
    exact ⟨msg, by simp [TrustedValidator.get_block, hb, hmsg]⟩
  · intro b txs hb hfetch hne
    simp [TrustedValidator.get_block, hb, hfetch, hne]
  · intro hd txs hok
    unfold TrustedValidator.get_block at hok
    split at hok
    · simp at hok
    · simp at hok
    · rename_i b hb
      split at hok
      · simp at hok
      · rename_i txs2 hf
        split at hok
        · simp at hok
        · injection hok with hok
          injection hok with h1 h2
          refine ⟨b, hb, h1.symm, ?_⟩
          rw [← h2]
          exact fetch_raw_txs_length v.provider b.transactions txs2 hf

/-- C5 witness: a missing block produces the `"Block not found"` error. -/
theorem get_block_error_conditions_witness :
    sampleValidator.get_block 999 = .error "Block not found" :=
  (get_block_error_conditions sampleValidator 999).2.1 rfl

/-- C9: when the fetched header has no mix-hash value, `get_payload`
still succeeds and sets `prev_randao` to the default (zero) value. -/
theorem get_payload_default_prev_randao (v : TrustedValidator) (tag : Nat)
    (hd : Header) (txs : List RawTransaction)
    (hb : v.get_block tag = .ok (hd, txs)) (hm : hd.mix_hash = none) :
    v.get_payload tag = .ok {
      timestamp := hd.timestamp
      prev_randao := 0
      fee_recipient := hd.miner
      withdrawals := if v.canyon_activation ≤ hd.timestamp then some [] else none
      parent_beacon_block_root := hd.parent_beacon_block_root
      transactions := txs
      no_tx_pool := true
      gas_limit := some (hd.gas_limit % 2 ^ 64) } := by
  simp [TrustedValidator.get_payload, hb, hm]

/-- C9 witness: the pre-canyon fixture has no mix hash, and its
reconstructed payload carries `prev_randao = 0`. -/
theorem get_payload_default_prev_randao_witness :
    preCanyonValidator.get_payload 5 = .ok preCanyonPayload := by
  have h := get_payload_default_prev_randao preCanyonValidator 5 preCanyonHeader []
    rfl rfl
  simpa using h

/-- C10: whenever the per-transaction fetch loop completes without
error it returns exactly one transaction per hash, so the
`"Transaction count mismatch"` branch of `get_block` is unreachable. -/
theorem get_block_count_mismatch_unreachable (v : TrustedValidator) (tag : Nat) :
    (∀ b txs, v.provider.get_block_by_number tag = .ok (some b) →
      fetch_raw_txs v.provider b.transactions = .ok txs →
      txs.length = b.transactions.length) ∧
    v.get_block tag ≠ .error "Transaction count mismatch" := by
  refine ⟨fun b txs _ h => fetch_raw_txs_length v.provider b.transactions txs h, ?_⟩
  intro h
  unfold TrustedValidator.get_block at h
  split at h
  · rename_i e he
    injection h with h
    exact fetch_block_msg_ne e h
  · injection h with h
    exact absurd h (by decide)
  · rename_i b hb
    split at h
    · rename_i e hf
      have he := fetch_raw_txs_error_msg v.provider b.transactions e hf
      subst he
      injection h with h
      exact absurd h (by decide)
    · rename_i txs hf
      split at h
      · rename_i hcond
        exact hcond (fetch_raw_txs_length v.provider b.transactions txs hf)
      · simp at h

/-- C10 witness: the loop over `sampleBlock`'s two hashes returns two
raw transactions. -/
theorem get_block_count_mismatch_unreachable_witness :
    ([[5, 5], [6, 6]] : List RawTransaction).length = sampleBlock.transactions.length :=
  (get_block_count_mismatch_unreachable sampleValidator 101).1 sampleBlock
    [[5, 5], [6, 6]] rfl rfl

/-! ## Claim theorems: EngineApiValidator -/

/-- The boolean status check holds exactly when the status field is the
exact string `"VALID"`. -/
theorem status_is_valid_iff (j : Json) :
    status_is_valid j = true ↔
      j.pointer_result_status.bind Json.as_str = some "VALID" := by
  unfold status_is_valid
  cases h : j.pointer_result_status.bind Json.as_str with
  | none => simp
  | some s => simp

/-- The boolean status check is false whenever the status field is
anything but the exact string `"VALID"`. -/
theorem status_is_valid_eq_false (j : Json)
    (h : j.pointer_result_status.bind Json.as_str ≠ some "VALID") :
    status_is_valid j = false := by
  unfold status_is_valid
  cases ho : j.pointer_result_status.bind Json.as_str with
  | none => rfl
  | some s =>
    rw [ho] at h
    simp only [beq_eq_false_iff_ne, ne_eq]
    intro hs
    exact h (by rw [hs])

/-- C3: `EngineApiValidator::validate` returns `Ok(true)` iff the HTTP
status is 200 and the parsed body's `result.status` field is the exact
string `"VALID"` (case-sensitive string equality); a non-200 response
always produces an error, and a malformed body propagates its parse
error. -/
theorem engine_validate_ok_true_iff (status : Nat) (body : Except String Json) :
    (EngineApiValidator.validate_response status body = .ok true ↔
      status = 200 ∧ ∃ j, body = .ok j ∧
        j.pointer_result_status.bind Json.as_str = some "VALID") ∧
    (status ≠ 200 → ∀ j, body = .ok j →
      EngineApiValidator.validate_response status body =
        .error ("Engine API returned status: " ++ Nat.repr status)) ∧
    (∀ e, body = .error e →
      EngineApiValidator.validate_response status body = .error e) := by
  refine ⟨?_, ?_, ?_⟩
  · cases body with
    | error e => simp [EngineApiValidator.validate_response]
    | ok j =>
      by_cases hs : status = 200
      · subst hs
        simp [EngineApiValidator.validate_response, status_is_valid_iff]
      · simp [EngineApiValidator.validate_response, hs]
  · intro hs j hj
    subst hj
    simp [EngineApiValidator.validate_response, hs]
  · intro e he
    subst he
    rfl

/-- C3 witness: a 200 response carrying `result.status = "VALID"` is
accepted; a 500 response is an error. -/
theorem engine_validate_ok_true_iff_witness :
    EngineApiValidator.validate_response 200 (.ok engineValidBody) = .ok true ∧
    EngineApiValidator.validate_response 500 (.ok Json.null) =
      .error ("Engine API returned status: " ++ Nat.repr 500) :=
  ⟨(engine_validate_ok_true_iff 200 (.ok engineValidBody)).1.mpr
      ⟨rfl, engineValidBody, rfl, rfl⟩,
   (engine_validate_ok_true_iff 500 (.ok Json.null)).2.1 (by decide) Json.null rfl⟩

/-- C2 counterexample: an HTTP-200 response whose `result.status` field
is the well-formed string `"INVALID"` — a status field other than
`"VALID"` — is returned as `Ok(false)`, not as an error, contradicting
the claim that it is surfaced as an `Err`. -/
theorem engine_validate_invalid_status_counterexample :
    EngineApiValidator.validate_response 200 (.ok engineInvalidBody) = .ok false := rfl

/-- C2 (amended): malformed bodies propagate their parse error and
non-success HTTP codes bail with an error, but an HTTP-200 response
whose `result.status` is anything other than `"VALID"` (including a
well-formed `"INVALID"`, a missing field, or a non-string) is coerced
to `Ok(false)` rather than surfaced as an error. -/
theorem engine_validate_error_surfacing (status : Nat) (body : Except String Json) :
    (∀ e, body = .error e →
      EngineApiValidator.validate_response status body = .error e) ∧
    (status ≠ 200 → ∀ j, body = .ok j →
      EngineApiValidator.validate_response status body =
        .error ("Engine API returned status: " ++ Nat.repr status)) ∧
    (∀ j, body = .ok j → j.pointer_result_status.bind Json.as_str ≠ some "VALID" →
      EngineApiValidator.validate_response status body =
        if status = 200 then .ok false
        else .error ("Engine API returned status: " ++ Nat.repr status)) := by
  refine ⟨?_, ?_, ?_⟩
  · intro e he
    subst he
    rfl
  · intro hs j hj
    subst hj
    simp [EngineApiValidator.validate_response, hs]
  · intro j hj hne
    subst hj
    by_cases hs : status = 200
    · subst hs
      simp [EngineApiValidator.validate_response, status_is_valid_eq_false j hne]
    · simp [EngineApiValidator.validate_response, hs]

/-- C2 witness: a malformed body surfaces its parse error, and a 200
response with status `"INVALID"` yields `Ok(false)`. -/
theorem engine_validate_error_surfacing_witness :
    EngineApiValidator.validate_response 404 (.error "malformed body") =
      .error "malformed body" ∧
    EngineApiValidator.validate_response 200 (.ok engineInvalidBody) = .ok false :=
  ⟨(engine_validate_error_surfacing 404 (.error "malformed body")).1
      "malformed body" rfl,
   by
    have h := (engine_validate_error_surfacing 200 (.ok engineInvalidBody)).2.2
      engineInvalidBody rfl (by decide)
    simpa using h⟩

/-! ## Claim theorems: networking -/

/-- C6: each required builder field omitted alone makes `build` fail
with that field's distinct message, and with all three supplied (with
or without a custom gossip configuration) `build` succeeds with a
driver whose listen multi-address, discovery chain ID and handler
chain ID match the supplied values. -/
theorem build_required_fields (c : Nat) (s : Address) (sock : SocketAddr)
    (g : Option GossipConfig) :
    (NetworkDriverBuilder.build { chain_id := some c, socket := some sock } =
      .error "unsafe block signer not set") ∧
    (NetworkDriverBuilder.build { block_signer := some s, socket := some sock } =
      .error "chain ID not set") ∧
    (NetworkDriverBuilder.build { block_signer := some s, chain_id := some c } =
      .error "socket address not set") ∧
    (∃ d, NetworkDriverBuilder.build
        { block_signer := some s, chain_id := some c, socket := some sock,
          gossip_config := g } = .ok d ∧
      d.gossip.addr = Multiaddr.from_address { ip := sock.ip, port := sock.port } ∧
      d.discovery.chain_id = c ∧
      d.gossip.handler.chain_id = c) := by
  refine ⟨rfl, rfl, rfl, ?_⟩
  cases g with
  | none => exact ⟨_, rfl, rfl, rfl, rfl⟩
  | some cfg => exact ⟨_, rfl, rfl, rfl, rfl⟩

/-- C7: `NetworkDriver::start` is two-phase: a discovery failure is
returned before gossip listening is attempted and before the loop is
spawned; a listen failure is returned before the loop is spawned; the
orchestration loop is spawned exactly when both phases succeed. -/
theorem start_two_phase (d : NetworkDriver) :
    (∀ e, d.discovery.start = .error e →
      d.start = ([.start_discovery], .error e)) ∧
    (∀ e, d.discovery.start = .ok () → d.gossip.listen = .error e →
      d.start = ([.start_discovery, .listen_gossip], .error e)) ∧
    (d.discovery.start = .ok () → d.gossip.listen = .ok () →
      d.start = ([.start_discovery, .listen_gossip, .spawn_loop], .ok ())) := by
  refine ⟨?_, ?_, ?_⟩
  · intro e he
    simp [NetworkDriver.start, he]
  · intro e hd hl
    simp [NetworkDriver.start, hd, hl]
  · intro hd hl
    simp [NetworkDriver.start, hd, hl]

/-- C7 witness: the three concrete startup outcomes. -/
theorem start_two_phase_witness :
    okDriver.start = ([.start_discovery, .listen_gossip, .spawn_loop], .ok ()) ∧
    discFailDriver.start = ([.start_discovery], .error "discv5 bind failed") ∧
    listenFailDriver.start = ([.start_discovery, .listen_gossip], .error "bind failed") :=
  ⟨(start_two_phase okDriver).2.2 rfl rfl,
   (start_two_phase discFailDriver).1 "discv5 bind failed" rfl,
   (start_two_phase listenFailDriver).2.1 "bind failed" rfl rfl⟩

/-- C8: for every chain ID, the three versioned block topics held by
the handler of a driver built by `NetworkDriverBuilder::build` are
exactly `/optimism/{chainId}/{0|1|2}/blocks`, so their topic hashes
equal independently recomputed hashes of those strings. -/
theorem build_topic_hashes (c : Nat) (s : Address) (sock : SocketAddr)
    (d : NetworkDriver)
    (h : NetworkDriverBuilder.build
      { block_signer := some s, chain_id := some c, socket := some sock } = .ok d) :
    d.gossip.handler.blocks_v1_topic =
      IdentTopic.new ("/optimism/" ++ Nat.repr c ++ "/0/blocks") ∧
    d.gossip.handler.blocks_v2_topic =
      IdentTopic.new ("/optimism/" ++ Nat.repr c ++ "/1/blocks") ∧
    d.gossip.handler.blocks_v3_topic =
      IdentTopic.new ("/optimism/" ++ Nat.repr c ++ "/2/blocks") ∧
    d.gossip.handler.blocks_v1_topic.hash =
      (IdentTopic.new ("/optimism/" ++ Nat.repr c ++ "/0/blocks")).hash ∧
    d.gossip.handler.blocks_v2_topic.hash =
      (IdentTopic.new ("/optimism/" ++ Nat.repr c ++ "/1/blocks")).hash ∧
    d.gossip.handler.blocks_v3_topic.hash =
      (IdentTopic.new ("/optimism/" ++ Nat.repr c ++ "/2/blocks")).hash := by
  injection h with h
  subst h
  exact ⟨rfl, rfl, rfl, rfl, rfl, rfl⟩

/-- C8 witness: the topics of the driver built for chain 10. -/
theorem build_topic_hashes_witness :
    sampleNetDriver.gossip.handler.blocks_v1_topic =
      IdentTopic.new ("/optimism/" ++ Nat.repr 10 ++ "/0/blocks") ∧
    sampleNetDriver.gossip.handler.blocks_v2_topic =
      IdentTopic.new ("/optimism/" ++ Nat.repr 10 ++ "/1/blocks") ∧
    sampleNetDriver.gossip.handler.blocks_v3_topic =
      IdentTopic.new ("/optimism/" ++ Nat.repr 10 ++ "/2/blocks") ∧
    sampleNetDriver.gossip.handler.blocks_v1_topic.hash =
      (IdentTopic.new ("/optimism/" ++ Nat.repr 10 ++ "/0/blocks")).hash ∧
    sampleNetDriver.gossip.handler.blocks_v2_topic.hash =
      (IdentTopic.new ("/optimism/" ++ Nat.repr 10 ++ "/1/blocks")).hash ∧
    sampleNetDriver.gossip.handler.blocks_v3_topic.hash =
      (IdentTopic.new ("/optimism/" ++ Nat.repr 10 ++ "/2/blocks")).hash :=
  build_topic_hashes 10 3 { ip := 1, port := 2 } sampleNetDriver rfl

end OpRs
